import Mathlib

/-!
Shallow embedding of the zerolog-gorm adapter (`logger.go`).

A `Logger` wraps an immutable `options` record.  `Trace` is the core
decision procedure: given the two clock readings the Go code takes via
`time.Since(begin)` (one at the slow-query comparison, one when the
elapsed-milliseconds field is recorded), a lazily invoked result
provider `f`, and an optional Go error, it either suppresses the trace
or emits a structured `Event`.  The second component of `Trace`'s
result counts how many times `f` was invoked, mirroring the single call
site in the source.  Durations are modelled as `Int` nanoseconds
(Go's `time.Duration`), and `Duration.Milliseconds()` as truncating
division by 10^6 (`Int.div`, Go's toward-zero division).
-/

namespace zerologgorm

/-- zerolog severity levels (`zerolog.Level`). -/
inductive Level where
  | trace
  | debug
  | info
  | warn
  | error
  | fatal
  | panicL
  | noLevel
  | disabled
deriving DecidableEq, Repr

/-- Go errors as seen by this package: the `gorm.ErrRecordNotFound`
sentinel, an arbitrary other error carrying a message, or a wrapping
error whose `Unwrap` yields the inner error (`fmt.Errorf` with `%w`). -/
inductive GoError where
  | recordNotFound
  | errorString (msg : String)
  | wrap (inner : GoError)
deriving DecidableEq, Repr

/-- `errors.Is(e, target)`: walk the unwrap chain, comparing each link
to `target`. -/
def goErrorsIs : GoError → GoError → Bool
  | GoError.wrap inner, target =>
      (GoError.wrap inner == target) || goErrorsIs inner target
  | e, target => e == target

/-- The `options` struct of `logger.go`.  `slowThreshold` is a
`time.Duration` in nanoseconds. -/
structure options where
  logParams : Bool
  skipFrames : Int
  defaultLogLevel : Level
  fieldName : String
  ignoreNotFoundErr : Bool
  slowThreshold : Int
  logAll : Bool
deriving DecidableEq, Repr

/-- The `Logger` struct: a value wrapping one options record. -/
structure Logger where
  opt : options
deriving DecidableEq, Repr

/-- The observable content of one emitted zerolog event: its level, the
attached error (if any), the caller-skip request (present only when
`skipFrames > 0`), the recorded `elapsed_ms` value, the SQL field
(name/value pair, present only for non-empty SQL text), and the
`rows_affected` field (present only when rows > -1). -/
structure Event where
  level : Level
  err : Option GoError
  callerSkip : Option Int
  elapsedMs : Int
  sqlField : Option (String × String)
  rowsAffected : Option Int
deriving DecidableEq, Repr

/-- `Trace` from `logger.go`.  `since1` is the value of
`time.Since(begin)` at the slow-threshold comparison (line 164);
`since2` is the value of the second `time.Since(begin)` call at the
`elapsed_ms` recording (line 189).  `f` is the GORM result provider
returning `(sql, rowsAffected)`.  Returns the emitted event (or `none`
when the trace is suppressed) together with the number of times `f`
was invoked. -/
def Trace (l : Logger) (since1 since2 : Int) (f : Unit → String × Int)
    (err : Option GoError) : Option Event × Nat :=
  let logLevel := l.opt.defaultLogLevel
  let shouldLog := l.opt.logAll
  let slow := l.opt.slowThreshold > 0 ∧ since1 > l.opt.slowThreshold
  let logLevel := if slow then Level.warn else logLevel
  let shouldLog := if slow then true else shouldLog
  let suppressed : Bool :=
    match err with
    | some e => l.opt.ignoreNotFoundErr && goErrorsIs e GoError.recordNotFound
    | none => false
  if suppressed then (none, 0)
  else
    let eventLevel := match err with | some _ => Level.error | none => logLevel
    let shouldLog := match err with | some _ => true | none => shouldLog
    if !shouldLog then (none, 0)
    else
      let res := f ()
      let sql := res.1
      let rows := res.2
      (some {
        level := eventLevel
        err := err
        callerSkip := if l.opt.skipFrames > 0 then some l.opt.skipFrames else none
        elapsedMs := Int.tdiv since2 1000000
        sqlField := if sql = "" then none else some (l.opt.fieldName, sql)
        rowsAffected := if rows > -1 then some rows else none }, 1)

/-- `ParamsFilter` from `logger.go`: redacts the parameter list unless
`logParams` is set; the SQL text passes through unchanged.  `none`
models Go's nil slice. -/
def ParamsFilter {α : Type} (l : Logger) (sql : String) (params : List α) :
    String × Option (List α) :=
  if !l.opt.logParams then (sql, none)
  else (sql, some params)

/-- The option functions of `logger.go` (`OptionFn`), one constructor
per `With...` constructor in the source. -/
inductive OptionFn where
  | WithLogAll
  | WithIgnoreNotFoundError
  | WithLogParams
  | WithSkipFrames (skip : Int)
  | WithSqlFieldName (name : String)
  | WithDefaultLogLevel (level : Level)
  | WithSlowThreshold (threshold : Int)
deriving DecidableEq, Repr

/-- Application of one option function to the options record, exactly
as each `With...` closure assigns its field in the source. -/
def applyOpt : OptionFn → options → options
  | OptionFn.WithLogAll, o => { o with logAll := true }
  | OptionFn.WithIgnoreNotFoundError, o => { o with ignoreNotFoundErr := true }
  | OptionFn.WithLogParams, o => { o with logParams := true }
  | OptionFn.WithSkipFrames skip, o => { o with skipFrames := skip }
  | OptionFn.WithSqlFieldName name, o => { o with fieldName := name }
  | OptionFn.WithDefaultLogLevel level, o => { o with defaultLogLevel := level }
  | OptionFn.WithSlowThreshold threshold, o => { o with slowThreshold := threshold }

/-- The configuration field each option function targets. -/
inductive ConfigField where
  | logParams
  | skipFrames
  | defaultLogLevel
  | fieldName
  | ignoreNotFoundErr
  | slowThreshold
  | logAll
deriving DecidableEq, Repr

/-- Which configuration field an option function writes. -/
def targetField : OptionFn → ConfigField
  | OptionFn.WithLogAll => ConfigField.logAll
  | OptionFn.WithIgnoreNotFoundError => ConfigField.ignoreNotFoundErr
  | OptionFn.WithLogParams => ConfigField.logParams
  | OptionFn.WithSkipFrames _ => ConfigField.skipFrames
  | OptionFn.WithSqlFieldName _ => ConfigField.fieldName
  | OptionFn.WithDefaultLogLevel _ => ConfigField.defaultLogLevel
  | OptionFn.WithSlowThreshold _ => ConfigField.slowThreshold

/-- The defaults `NewLogger` starts from: Debug level, field name
"sql", slow threshold 500ms (= 5·10^8 ns), all booleans false,
no frame skipping. -/
def defaultOptions : options :=
  { logParams := false
    skipFrames := 0
    defaultLogLevel := Level.debug
    fieldName := "sql"
    ignoreNotFoundErr := false
    slowThreshold := 500000000
    logAll := false }

/-- `NewLogger` from `logger.go`: fold the option functions, in call
order, over the defaults. -/
def NewLogger (opts : List OptionFn) : Logger :=
  { opt := opts.foldl (fun o fn => applyOpt fn o) defaultOptions }

/-- A concrete result provider used by concrete instantiations. -/
def sampleProvider : Unit → String × Int := fun _ => ("SELECT 1", 1)

/-- Option functions targeting different fields commute pointwise. -/
theorem applyOpt_comm (o1 o2 : OptionFn) (h : targetField o1 ≠ targetField o2)
    (s : options) : applyOpt o2 (applyOpt o1 s) = applyOpt o1 (applyOpt o2 s) := by
  cases o1 <;> cases o2 <;> first | rfl | exact absurd rfl h

/-- Of two option functions targeting the same field, the later one
determines the result. -/
theorem applyOpt_last (o1 o2 : OptionFn) (h : targetField o1 = targetField o2)
    (s : options) : applyOpt o2 (applyOpt o1 s) = applyOpt o2 s := by
  cases o1 <;> cases o2 <;> first | rfl | simp [targetField] at h

/-- Claim C1: with `logAll = false` and `slowThreshold = 0`, a trace of a
fast, successful query (nil error) emits nothing: no event, and the
result provider is never invoked. -/
theorem C1_fast_success_silent (l : Logger) (since1 since2 : Int)
    (f : Unit → String × Int) (h1 : l.opt.logAll = false)
    (h2 : l.opt.slowThreshold = 0) :
    Trace l since1 since2 f none = (none, 0) := by
  unfold Trace
  simp [h1, h2]

/-- Witness for C1 at a concrete logger and a large elapsed time. -/
theorem C1_witness :
    (NewLogger [OptionFn.WithSlowThreshold 0]).opt.logAll = false
    ∧ (NewLogger [OptionFn.WithSlowThreshold 0]).opt.slowThreshold = 0
    ∧ Trace (NewLogger [OptionFn.WithSlowThreshold 0]) 999999999 999999999
        sampleProvider none = (none, 0) :=
  ⟨rfl, rfl, C1_fast_success_silent _ _ _ _ rfl rfl⟩

/-- Claim C2, counterexample: an error that is not the record-not-found
sentinel (it merely wraps it twice) together with
`ignoreNotFoundError = true` produces no event at all, although the
claim predicts an Error-level event for every non-nil, non-sentinel
error under every configuration.  The suppression check uses
unwrapping-aware matching (`errors.Is`), not equality with the
sentinel. -/
theorem C2_cex :
    GoError.wrap (GoError.wrap GoError.recordNotFound) ≠ GoError.recordNotFound
    ∧ (Trace (NewLogger [OptionFn.WithIgnoreNotFoundError, OptionFn.WithSlowThreshold 1])
        1000000 1000000 sampleProvider
        (some (GoError.wrap (GoError.wrap GoError.recordNotFound)))).1 = none :=
  ⟨by decide, rfl⟩

/-- Claim C2 (amended): for every trace whose non-nil error does not
match the record-not-found sentinel under `errors.Is` unwrapping, an
event is emitted at Error severity with the error attached, regardless
of the configuration — in particular for slow queries, where the Error
level from the error branch overwrites the Warn level from the slow
branch. -/
theorem C2_error_level (l : Logger) (since1 since2 : Int)
    (f : Unit → String × Int) (e : GoError)
    (h : goErrorsIs e GoError.recordNotFound = false) :
    ((Trace l since1 since2 f (some e)).1).map Event.level = some Level.error
    ∧ ((Trace l since1 since2 f (some e)).1).map Event.err = some (some e) := by
  unfold Trace
  simp [h]

/-- Witness for C2 at the default logger, a slow elapsed time and a
plain error. -/
theorem C2_witness :
    goErrorsIs (GoError.errorString "boom") GoError.recordNotFound = false
    ∧ (((Trace (NewLogger []) 600000000 600000000 sampleProvider
          (some (GoError.errorString "boom"))).1).map Event.level = some Level.error
       ∧ ((Trace (NewLogger []) 600000000 600000000 sampleProvider
          (some (GoError.errorString "boom"))).1).map Event.err
          = some (some (GoError.errorString "boom"))) :=
  ⟨by decide, C2_error_level _ _ _ _ _ (by decide)⟩

/-- Claim C3: with `ignoreNotFoundError = true`, a trace whose error is
the record-not-found sentinel emits nothing at any level — for every
elapsed time (however slow) and every `logAll` setting — and the result
provider is never invoked. -/
theorem C3_ignored_not_found_silent (l : Logger) (since1 since2 : Int)
    (f : Unit → String × Int) (h : l.opt.ignoreNotFoundErr = true) :
    Trace l since1 since2 f (some GoError.recordNotFound) = (none, 0) := by
  unfold Trace
  simp [h, goErrorsIs]

/-- Witness for C3 at a logger that also has `logAll = true` and a
slow elapsed time. -/
theorem C3_witness :
    (NewLogger [OptionFn.WithIgnoreNotFoundError, OptionFn.WithLogAll]).opt.ignoreNotFoundErr = true
    ∧ Trace (NewLogger [OptionFn.WithIgnoreNotFoundError, OptionFn.WithLogAll])
        999999999 999999999 sampleProvider (some GoError.recordNotFound) = (none, 0) :=
  ⟨rfl, C3_ignored_not_found_silent _ _ _ _ rfl⟩

/-- Claim C4, counterexample: with `ignoreNotFoundError = true`, an
error that wraps the sentinel — and therefore is not exactly the
sentinel value — is still suppressed, because the source (line 172)
checks `errors.Is(err, gorm.ErrRecordNotFound)`, which walks the unwrap
chain, not exact identity. -/
theorem C4_cex :
    GoError.wrap GoError.recordNotFound ≠ GoError.recordNotFound
    ∧ (NewLogger [OptionFn.WithIgnoreNotFoundError, OptionFn.WithLogAll]).opt.ignoreNotFoundErr = true
    ∧ (Trace (NewLogger [OptionFn.WithIgnoreNotFoundError, OptionFn.WithLogAll])
        0 0 sampleProvider (some (GoError.wrap GoError.recordNotFound))).1 = none :=
  ⟨by decide, rfl, rfl⟩

/-- Claim C4 (amended): with `ignoreNotFoundError = true`, a trace with
a non-nil error is suppressed exactly when `errors.Is` matches the
error against the record-not-found sentinel — i.e. when the error is
the sentinel or wraps it at any depth. -/
theorem C4_suppression_iff (l : Logger) (since1 since2 : Int)
    (f : Unit → String × Int) (e : GoError)
    (h : l.opt.ignoreNotFoundErr = true) :
    (Trace l since1 since2 f (some e)).1 = none
      ↔ goErrorsIs e GoError.recordNotFound = true := by
  unfold Trace
  cases hIs : goErrorsIs e GoError.recordNotFound <;> simp [h, hIs]

/-- Witness for C4 at a concrete logger and a non-matching error. -/
theorem C4_witness :
    (NewLogger [OptionFn.WithIgnoreNotFoundError]).opt.ignoreNotFoundErr = true
    ∧ ((Trace (NewLogger [OptionFn.WithIgnoreNotFoundError]) 0 0 sampleProvider
          (some (GoError.errorString "x"))).1 = none
        ↔ goErrorsIs (GoError.errorString "x") GoError.recordNotFound = true) :=
  ⟨rfl, C4_suppression_iff _ _ _ _ _ rfl⟩

/-- Claim C5: with a positive slow threshold, a nil-error trace whose
elapsed time (at the threshold comparison) exceeds the threshold emits
an event at Warn severity recording the elapsed milliseconds (of the
reading taken at recording time) and, when the provider's SQL text is
non-empty, the SQL text under the configured field name. -/
theorem C5_slow_warn (l : Logger) (since1 since2 : Int)
    (f : Unit → String × Int) (h1 : l.opt.slowThreshold > 0)
    (h2 : since1 > l.opt.slowThreshold) :
    ((Trace l since1 since2 f none).1).map Event.level = some Level.warn
    ∧ ((Trace l since1 since2 f none).1).map Event.elapsedMs
        = some (Int.tdiv since2 1000000)
    ∧ ((Trace l since1 since2 f none).1).map Event.sqlField
        = some (if (f ()).1 = "" then none else some (l.opt.fieldName, (f ()).1)) := by
  unfold Trace
  simp [h1, h2]

/-- Witness for C5 at the default logger (threshold 500ms) with 600ms
elapsed at the comparison and 700ms at the recording. -/
theorem C5_witness :
    (NewLogger []).opt.slowThreshold > 0
    ∧ ((600000000 : Int) > (NewLogger []).opt.slowThreshold)
    ∧ (((Trace (NewLogger []) 600000000 700000000 sampleProvider none).1).map Event.level
          = some Level.warn
       ∧ ((Trace (NewLogger []) 600000000 700000000 sampleProvider none).1).map Event.elapsedMs
          = some (Int.tdiv 700000000 1000000)
       ∧ ((Trace (NewLogger []) 600000000 700000000 sampleProvider none).1).map Event.sqlField
          = some (if (sampleProvider ()).1 = "" then none
                  else some ((NewLogger []).opt.fieldName, (sampleProvider ()).1))) :=
  ⟨by decide, by decide, C5_slow_warn _ _ _ _ (by decide) (by decide)⟩

/-- Claim C6: `ParamsFilter` returns the SQL text unchanged and, for the
parameter list, `none` (Go's nil slice) when `logParams` is false and
the input list itself when `logParams` is true.  (It is a pure Lean
function, matching the side-effect-free Go method.) -/
theorem C6_params_filter : ∀ (α : Type) (l : Logger) (sql : String) (params : List α),
    ParamsFilter l sql params
      = (sql, if l.opt.logParams = true then some params else none) := by
  intro α l sql params
  unfold ParamsFilter
  cases h : l.opt.logParams <;> simp [h]

/-- Claim C7: the result provider `f` is invoked exactly once when an
event is emitted and zero times when the trace is suppressed (the
ignored-not-found return and the shouldLog-false return). -/
theorem C7_lazy_provider (l : Logger) (since1 since2 : Int)
    (f : Unit → String × Int) (err : Option GoError) :
    (Trace l since1 since2 f err).2
      = if ((Trace l since1 since2 f err).1).isSome = true then 1 else 0 := by
  unfold Trace
  cases err <;> dsimp only <;> split_ifs <;> simp_all

/-- Claim C8, counterexample: the source calls `time.Since(begin)` twice
(line 164 and line 189), so the slow-query decision and the recorded
`elapsed_ms` come from two different measurements.  Here the comparison
reading is 0ns (not slow, with threshold 5ns), yet the emitted event
records 10ms; a single measurement recording 10ms (= 10^7 ns > 5 ns)
would have had to take the Warn branch, but the level is Debug. -/
theorem C8_cex :
    ((Trace (NewLogger [OptionFn.WithLogAll, OptionFn.WithSlowThreshold 5])
        0 10000000 sampleProvider none).1).map Event.level = some Level.debug
    ∧ ((Trace (NewLogger [OptionFn.WithLogAll, OptionFn.WithSlowThreshold 5])
        0 10000000 sampleProvider none).1).map Event.elapsedMs = some 10
    ∧ (NewLogger [OptionFn.WithLogAll, OptionFn.WithSlowThreshold 5]).opt.slowThreshold = 5
    ∧ ((10 : Int) * 1000000 > 5) :=
  ⟨rfl, rfl, rfl, by decide⟩

/-- Claim C8 (amended): `Trace` takes two separate clock readings.  When
an event is emitted on the nil-error path, its `elapsed_ms` field is the
milliseconds of the second reading, while the slow-query escalation (and
hence the level) is decided by the first reading alone. -/
theorem C8_two_readings (l : Logger) (since1 since2 : Int)
    (f : Unit → String × Int)
    (h : ((Trace l since1 since2 f none).1).isSome = true) :
    ((Trace l since1 since2 f none).1).map Event.elapsedMs
      = some (Int.tdiv since2 1000000)
    ∧ ((Trace l since1 since2 f none).1).map Event.level
      = some (if l.opt.slowThreshold > 0 ∧ since1 > l.opt.slowThreshold
              then Level.warn else l.opt.defaultLogLevel) := by
  unfold Trace at h ⊢
  by_cases hs : l.opt.slowThreshold > 0 ∧ since1 > l.opt.slowThreshold
  · simp [hs]
  · cases hl : l.opt.logAll
    · exfalso
      rw [hl] at h
      simp [hs] at h
    · simp [hs, hl]

/-- Witness for C8 at a logger with `logAll = true`, first reading 0 and
second reading 123456789ns (123ms). -/
theorem C8_witness :
    ((Trace (NewLogger [OptionFn.WithLogAll]) 0 123456789 sampleProvider none).1).isSome = true
    ∧ (((Trace (NewLogger [OptionFn.WithLogAll]) 0 123456789 sampleProvider none).1).map Event.elapsedMs
          = some (Int.tdiv 123456789 1000000)
       ∧ ((Trace (NewLogger [OptionFn.WithLogAll]) 0 123456789 sampleProvider none).1).map Event.level
          = some (if (NewLogger [OptionFn.WithLogAll]).opt.slowThreshold > 0
                    ∧ (0 : Int) > (NewLogger [OptionFn.WithLogAll]).opt.slowThreshold
                  then Level.warn
                  else (NewLogger [OptionFn.WithLogAll]).opt.defaultLogLevel)) :=
  ⟨by decide, C8_two_readings _ _ _ _ (by decide)⟩

/-- Claim C9: `NewLogger` folds its option functions in call order over
the defaults (logParams=false, skipFrames=0, level Debug, field "sql",
ignoreNotFoundErr=false, slowThreshold=500ms, logAll=false); adjacent
options targeting different fields commute, and of two options
targeting the same field the later one determines the result. -/
theorem C9_option_algebra :
    NewLogger []
      = { opt := { logParams := false, skipFrames := 0,
                   defaultLogLevel := Level.debug, fieldName := "sql",
                   ignoreNotFoundErr := false, slowThreshold := 500000000,
                   logAll := false } }
    ∧ (∀ o1 o2 : OptionFn, targetField o1 ≠ targetField o2 →
        ∀ pre post : List OptionFn,
          NewLogger (pre ++ o1 :: o2 :: post) = NewLogger (pre ++ o2 :: o1 :: post))
    ∧ (∀ o1 o2 : OptionFn, targetField o1 = targetField o2 →
        ∀ pre post : List OptionFn,
          NewLogger (pre ++ o1 :: o2 :: post) = NewLogger (pre ++ o2 :: post)) := by
  refine ⟨rfl, ?_, ?_⟩
  · intro o1 o2 h pre post
    simp only [NewLogger, List.foldl_append, List.foldl_cons]
    rw [applyOpt_comm o1 o2 h]
  · intro o1 o2 h pre post
    simp only [NewLogger, List.foldl_append, List.foldl_cons]
    rw [applyOpt_last o1 o2 h]

/-- Witness for C9: two different-field options in either order give the
same configuration, and of two same-field options the later wins. -/
theorem C9_witness :
    NewLogger [OptionFn.WithLogAll, OptionFn.WithLogParams]
      = NewLogger [OptionFn.WithLogParams, OptionFn.WithLogAll]
    ∧ NewLogger [OptionFn.WithSkipFrames 1, OptionFn.WithSkipFrames 2]
      = NewLogger [OptionFn.WithSkipFrames 2]
    ∧ targetField OptionFn.WithLogAll ≠ targetField OptionFn.WithLogParams
    ∧ targetField (OptionFn.WithSkipFrames 1) = targetField (OptionFn.WithSkipFrames 2) :=
  ⟨C9_option_algebra.2.1 _ _ (by decide) [] [],
   C9_option_algebra.2.2 _ _ (by decide) [] [],
   by decide, by decide⟩

/-- Claim C10: whenever `slowThreshold ≤ 0` (zero or negative), the slow
branch never fires on the nil-error path: no elapsed time forces
emission (an event exists exactly when `logAll` is set) and the emitted
level is always the configured default, never Warn via the slow
branch. -/
theorem C10_nonpositive_threshold (l : Logger) (since1 since2 : Int)
    (f : Unit → String × Int) (h : l.opt.slowThreshold ≤ 0) :
    ((Trace l since1 since2 f none).1).isSome = l.opt.logAll
    ∧ ((Trace l since1 since2 f none).1).map Event.level
      = (if l.opt.logAll = true then some l.opt.defaultLogLevel else none) := by
  have hs : ¬ (l.opt.slowThreshold > 0 ∧ since1 > l.opt.slowThreshold) := by
    intro hc
    exact absurd hc.1 (not_lt.mpr h)
  unfold Trace
  cases hl : l.opt.logAll <;> simp [hs, hl]

/-- Witness for C10 at a negative threshold and an enormous elapsed
time. -/
theorem C10_witness :
    (NewLogger [OptionFn.WithSlowThreshold (-7), OptionFn.WithLogAll]).opt.slowThreshold ≤ 0
    ∧ (((Trace (NewLogger [OptionFn.WithSlowThreshold (-7), OptionFn.WithLogAll])
          999999999999 999999999999 sampleProvider none).1).isSome
        = (NewLogger [OptionFn.WithSlowThreshold (-7), OptionFn.WithLogAll]).opt.logAll
       ∧ ((Trace (NewLogger [OptionFn.WithSlowThreshold (-7), OptionFn.WithLogAll])
          999999999999 999999999999 sampleProvider none).1).map Event.level
        = (if (NewLogger [OptionFn.WithSlowThreshold (-7), OptionFn.WithLogAll]).opt.logAll = true
           then some (NewLogger [OptionFn.WithSlowThreshold (-7), OptionFn.WithLogAll]).opt.defaultLogLevel
           else none)) :=
  ⟨by decide, C10_nonpositive_threshold _ _ _ _ (by decide)⟩

end zerologgorm
